import Mathlib

/-!
# Verification of the SMS Gamer UPS monitor (binary protocol codec and MQTT bridge)

Shallow embedding of `sms_gamer_ups_monitor.py` (the improved, canonical variant;
`SMS_monitor.py` shares the codec verbatim).  Bytes are modelled as `Nat`,
fixed-point telemetry values as `ℚ` (every Python float computation touched by
the claims is exact, see `interpret_q_response`), serial and MQTT side effects
as explicit effect lists, and fallible operations as `Option`/`Except`.
-/

namespace SMSGamer

/-! ## Codec definitions -/

/-- `calculate_checksum`: Python `(-1 * (cmd_byte + p1 + p2 + p3 + p4)) & 0xFF`.
Python `& 0xFF` on a negative int is the non-negative remainder mod 256, which is
`Int.emod` in Lean; the result is returned as a natural number. -/
def calculate_checksum (cmd_byte p1 p2 p3 p4 : Nat) : Nat :=
  ((-1 * ((cmd_byte : Int) + p1 + p2 + p3 + p4)) % 256).toNat

/-- `struct.pack('BBBBBB', ...)`: packs six unsigned bytes; raises (here: `none`)
when any argument is out of the byte range. -/
def pack_bytes6 (b0 b1 b2 b3 b4 b5 : Nat) : Option (List Nat) :=
  if b0 < 256 ∧ b1 < 256 ∧ b2 < 256 ∧ b3 < 256 ∧ b4 < 256 ∧ b5 < 256 then
    some [b0, b1, b2, b3, b4, b5]
  else none

/-- `build_full_command`: packs the five protocol bytes plus the checksum and
appends the terminator `b'\r'` (0x0D). -/
def build_full_command (cmd_byte p1 p2 p3 p4 : Nat) : Option (List Nat) :=
  (pack_bytes6 cmd_byte p1 p2 p3 p4 (calculate_checksum cmd_byte p1 p2 p3 p4)).map
    (fun l => l ++ [0x0D])

/-! ## Status-response decoder (`_interpret_q_response`) -/

/-- Big-endian unsigned integer value of a byte list, as computed by
`struct.unpack(">I", ...)` / `struct.unpack(">H", ...)`. -/
def unpackBE (bs : List Nat) : Nat :=
  bs.foldl (fun acc b => acc * 256 + b) 0

/-- Python slice `r[i:j]` on a byte list. -/
def listSlice (r : List Nat) (i j : Nat) : List Nat :=
  (r.drop i).take (j - i)

/-- `flags_bits`: the bit-to-name dictionary of `_interpret_q_response`, in its
insertion order (bit 7 first). -/
def flags_bits : List (Nat × String) :=
  [(7, "BateriaEmUso"), (6, "BateriaBaixa"), (5, "ByPass"), (4, "Boost"),
   (3, "UpsOk"), (2, "TesteAtivo"), (1, "ShutdownAtivo"), (0, "BeepLigado")]

/-- `flags_on`: Python `[name for bit, name in flags_bits.items() if extra & (1 << bit)]`. -/
def flags_on (extra : Nat) : List String :=
  (flags_bits.filter (fun p => extra &&& (1 <<< p.1) != 0)).map Prod.snd

/-- `flags_str`: Python `', '.join(flags_on) if flags_on else 'nenhuma flag ativa'`. -/
def flags_str_of (extra : Nat) : String :=
  if (flags_on extra).isEmpty then "nenhuma flag ativa"
  else String.intercalate ", " (flags_on extra)

/-- The decoded status record built by `_interpret_q_response`.  The impure
`timestamp` field is omitted; `raw_response` holds the (possibly trimmed) byte
list whose hex string the source stores as `raw_response_hex`. -/
structure QStatus where
  vin : ℚ
  vout : ℚ
  load_percent : ℚ
  frequency : ℚ
  battery_percent : ℚ
  temperature : ℚ
  extra_flags_raw : Nat
  active_flags : List String
  active_flags_str : String
  raw_response : List Nat
deriving DecidableEq

/-- Python `if response[-1] == 0x0D: response = response[:-1]` (the caller
guarantees the list is non-empty). -/
def trim_terminator (response : List Nat) : List Nat :=
  if response.getLast? = some 0x0D then response.dropLast else response

/-- `_interpret_q_response`: rejects responses shorter than 17 bytes (before any
terminator stripping), strips one optional trailing 0x0D, then decodes the fixed
field layout.  The inner `try/except` of the source returns `None` exactly when
some field slice is out of range, i.e. when fewer than 16 bytes remain after
trimming.  Each field is `round(raw / 10.0, 1)` in the source: since `raw` is an
integer, `raw / 10` is an exact multiple of 1/10, both the float division and the
rounding are exact, and the value is the rational `raw / 10`. -/
def interpret_q_response (response : List Nat) : Option QStatus :=
  if response.length < 17 then none
  else
    let r := trim_terminator response
    if r.length < 16 then none
    else
      some
        { vin := (unpackBE (listSlice r 1 5) : ℚ) / 10
          vout := (unpackBE (listSlice r 5 7) : ℚ) / 10
          load_percent := (unpackBE (listSlice r 7 9) : ℚ) / 10
          frequency := (unpackBE (listSlice r 9 11) : ℚ) / 10
          battery_percent := (unpackBE (listSlice r 11 13) : ℚ) / 10
          temperature := (unpackBE (listSlice r 13 15) : ℚ) / 10
          extra_flags_raw := r.getD 15 0
          active_flags := flags_on (r.getD 15 0)
          active_flags_str := flags_str_of (r.getD 15 0)
          raw_response := r }

/-- The synthetic status buffer of the spec's decoding example (17 bytes,
terminator included). -/
def qExampleResponse : List Nat :=
  [0x00, 0x00, 0x00, 0x09, 0x60, 0x00, 0xE6, 0x00, 0x00, 0x02, 0x58,
   0x03, 0x84, 0x01, 0xF4, 0x81, 0x0D]

/-- A 17-byte response made of 16 payload bytes plus the 0x0D terminator. -/
def sixteenPlusTerminator : List Nat :=
  [0, 0, 0, 0, 0, 0, 0, 0, 0, 0, 0, 0, 0, 0, 0, 0, 0x0D]

/-! ## Command registry and transport (`SMS_GAMER_COMMANDS_PARAMS`, serial session) -/

/-- `SMS_GAMER_COMMANDS_PARAMS`: the static registry mapping command names to
`(cmd_byte, p1, p2, p3, p4)`, in the source's dictionary insertion order
(improved variant; the commented-out experimental entries are not present). -/
def SMS_GAMER_COMMANDS_PARAMS : List (String × (Nat × Nat × Nat × Nat × Nat)) :=
  [("Q", (0x51, 0xFF, 0xFF, 0xFF, 0xFF)),
   ("I", (0x49, 0xFF, 0xFF, 0xFF, 0xFF)),
   ("F", (0x46, 0xFF, 0xFF, 0xFF, 0xFF)),
   ("M", (0x4D, 0xFF, 0xFF, 0xFF, 0xFF)),
   ("D", (0x44, 0xFF, 0xFF, 0xFF, 0xFF)),
   ("C", (0x43, 0xFF, 0xFF, 0xFF, 0xFF)),
   ("G", (0x47, 0x01, 0xFF, 0xFF, 0xFF)),
   ("L", (0x4C, 0xFF, 0xFF, 0xFF, 0xFF)),
   ("T", (0x54, 0x00, 0x10, 0x00, 0x00)),
   ("T1", (0x54, 0x00, 0x64, 0x00, 0x00)),
   ("T2", (0x54, 0x00, 0xC8, 0x00, 0x00)),
   ("T3", (0x54, 0x01, 0x2C, 0x00, 0x00)),
   ("T9", (0x54, 0x03, 0x84, 0x00, 0x00)),
   ("R", (0x52, 0x00, 0xC8, 0x27, 0x0F))]

/-- `simple_commands_map`: the minimal command set accepted by
`send_simple_command`. -/
def simple_commands_map : List (String × Nat) :=
  [("Q", 0x51), ("I", 0x49), ("F", 0x46)]

/-- The mutable session state relevant to command sending: `self.connected` and
whether `self.serial` is non-`None`. -/
structure BridgeState where
  connected : Bool
  serialPresent : Bool
deriving DecidableEq

/-- A serial/MQTT side effect performed while sending a command.  Logging is an
observation only and is not modelled. -/
inductive Effect where
  | serialWrite (frame : List Nat)
  | sleepMs (ms : Nat)
  | serialRead (maxBytes : Nat)
  | mqttPublish (topic : String)
deriving DecidableEq

/-- Whether an effect is an MQTT publish. -/
def Effect.isMqttPublish : Effect → Bool
  | .mqttPublish _ => true
  | _ => false

/-- `send_simple_command`: raises `ValueError` (here `Except.error`) on a command
character outside the simple map, before the connected check; otherwise builds
the wildcard-parameter frame, returns `None` with no serial traffic when the
transport is down, and else writes the frame, settles 0.2 s, and reads up to 64
bytes.  `resp` stands for the bytes the serial line would deliver; an empty read
yields `None`. -/
def send_simple_command (command_char : String) (st : BridgeState) (resp : List Nat) :
    Except String (Option (List Nat) × List Effect) :=
  match simple_commands_map.lookup command_char with
  | none => Except.error "Comando simples nao suportado"
  | some cmd_byte =>
    match build_full_command cmd_byte 0xFF 0xFF 0xFF 0xFF with
    | none => Except.ok (none, [])
    | some cmd_packet =>
      if st.connected && st.serialPresent then
        Except.ok
          ((if resp.isEmpty then none else some resp),
           [Effect.serialWrite cmd_packet, Effect.sleepMs 200, Effect.serialRead 64])
      else Except.ok (none, [])

/-- `send_predefined_command`: looks the key up in `SMS_GAMER_COMMANDS_PARAMS`,
returning `None` with no serial traffic on a miss or when the transport is down;
otherwise writes the built frame, settles 1 s, and reads up to 64 bytes. -/
def send_predefined_command (command_key : String) (st : BridgeState) (resp : List Nat) :
    Option (List Nat) × List Effect :=
  match SMS_GAMER_COMMANDS_PARAMS.lookup command_key with
  | none => (none, [])
  | some (cmd_byte, p1, p2, p3, p4) =>
    match build_full_command cmd_byte p1 p2 p3 p4 with
    | none => (none, [])
    | some cmd_packet =>
      if st.connected && st.serialPresent then
        ((if resp.isEmpty then none else some resp),
         [Effect.serialWrite cmd_packet, Effect.sleepMs 1000, Effect.serialRead 64])
      else (none, [])

/-! ## MQTT bridge (`_on_mqtt_connect`, `_on_mqtt_message`, discovery) -/

/-- The result of parsing an inbound MQTT payload in `_on_mqtt_message`:
`malformed` for a `json.JSONDecodeError` (or any other parsing exception),
`noCommand` for valid JSON whose `"command"` entry is missing or falsy, and
`command key` for a truthy `"command"` string. -/
inductive MqttPayload where
  | malformed
  | noCommand
  | command (key : String)

/-- `_on_mqtt_message`: malformed payloads and missing keys are logged and
dropped; a key absent from the registry is logged and dropped; a registered key
is forwarded to `send_predefined_command`.  The result is the list of transport
effects performed (the response is logged, never republished). -/
def on_mqtt_message (payload : MqttPayload) (st : BridgeState) (resp : List Nat) :
    List Effect :=
  match payload with
  | .malformed => []
  | .noCommand => []
  | .command key =>
    match SMS_GAMER_COMMANDS_PARAMS.lookup key with
    | some _ => (send_predefined_command key st resp).2
    | none => []

/-- Module-level MQTT constants of the source. -/
def MQTT_CLIENT_ID : String := "sms_gamer_monitor"

def MQTT_TOPIC_BASE : String := "sms_gamer/ups"

def haDiscoveryRoot : String := "homeassistant"

/-- The inbound command topic `sms_gamer/ups/command`. -/
def commandTopic : String := MQTT_TOPIC_BASE ++ "/command"

/-- An action performed against the MQTT broker by the connect callback.
`payloadEmpty` records whether the publish carried `payload=None` (the retained
purge) or a discovery configuration body. -/
inductive MqttAction where
  | subscribe (topic : String)
  | publish (topic : String) (payloadEmpty : Bool) (retain : Bool)
deriving DecidableEq

/-- The keys of `sensors_to_discover`, in dictionary order. -/
def sensors_to_discover : List String :=
  ["vin", "vout", "load_percent", "frequency", "battery_percent", "temperature",
   "active_flags_str"]

/-- The keys of the `binary_flags` discovery table, in dictionary order. -/
def binary_flags : List String :=
  ["BateriaEmUso", "BateriaBaixa", "ByPass", "Boost", "UpsOk", "TesteAtivo",
   "ShutdownAtivo", "BeepLigado"]

/-- Python `str.lower()` on the ASCII flag names (character-wise lowercase; kept
as a plain list map so that it evaluates by kernel reduction). -/
def lowerStr (s : String) : String :=
  String.mk (s.data.map Char.toLower)

/-- The keys of `buttons_config`, in dictionary order. -/
def buttons_config : List String :=
  ["battery_test", "battery_discharge", "cancel_action", "shutdown_restore"]

/-- `publish_discovery_messages`: the retained discovery publishes, in source
order — the numeric/text sensors, the binary flag sensors (keys lowercased), the
beep-control switch, then the action buttons.  Payload bodies are the static
configuration tables, out of scope; only topic, emptiness and retain flag are
modelled. -/
def publish_discovery_messages : List MqttAction :=
  (sensors_to_discover.map (fun key =>
    MqttAction.publish
      (haDiscoveryRoot ++ "/sensor/" ++ MQTT_CLIENT_ID ++ "_" ++ key ++ "/config")
      false true)) ++
  (binary_flags.map (fun flag_key =>
    MqttAction.publish
      (haDiscoveryRoot ++ "/binary_sensor/" ++ MQTT_CLIENT_ID ++ "_" ++ lowerStr flag_key
        ++ "/config")
      false true)) ++
  [MqttAction.publish
    (haDiscoveryRoot ++ "/switch/" ++ MQTT_CLIENT_ID ++ "_beep_control/config") false true] ++
  (buttons_config.map (fun button_key =>
    MqttAction.publish
      (haDiscoveryRoot ++ "/button/" ++ MQTT_CLIENT_ID ++ "_" ++ button_key ++ "/config")
      false true))

/-- `_on_mqtt_connect`: on `rc == 0` it re-subscribes to the command topic,
publishes an empty retained message there to purge any stale retained command,
and republishes the discovery set; on a non-zero result code it only logs. -/
def on_mqtt_connect (rc : Nat) : List MqttAction :=
  if rc = 0 then
    MqttAction.subscribe commandTopic ::
    MqttAction.publish commandTopic true true ::
    publish_discovery_messages
  else []

/-- Whether an MQTT action is a subscription. -/
def MqttAction.isSubscribe : MqttAction → Bool
  | .subscribe _ => true
  | _ => false

/-- Whether an MQTT action is the retained purge of the command topic. -/
def MqttAction.isCommandPurge : MqttAction → Bool
  | .publish topic payloadEmpty retain =>
      topic = commandTopic && payloadEmpty && retain
  | _ => false

/-! ## Helper lemmas -/

/-- The checksum is always a byte value. -/
theorem calculate_checksum_lt (cmd_byte p1 p2 p3 p4 : Nat) :
    calculate_checksum cmd_byte p1 p2 p3 p4 < 256 := by
  unfold calculate_checksum
  omega

/-- On byte inputs the pack step succeeds, so `build_full_command` returns the
literal 7-byte frame. -/
theorem build_full_command_eq (cmd_byte p1 p2 p3 p4 : Nat)
    (h0 : cmd_byte < 256) (h1 : p1 < 256) (h2 : p2 < 256) (h3 : p3 < 256) (h4 : p4 < 256) :
    build_full_command cmd_byte p1 p2 p3 p4 =
      some [cmd_byte, p1, p2, p3, p4, calculate_checksum cmd_byte p1 p2 p3 p4, 0x0D] := by
  have hcs := calculate_checksum_lt cmd_byte p1 p2 p3 p4
  unfold build_full_command pack_bytes6
  rw [if_pos ⟨h0, h1, h2, h3, h4, hcs⟩]
  rfl

/-- Trimming the terminator removes at most one byte. -/
theorem trim_terminator_length_ge (response : List Nat) :
    response.length - 1 ≤ (trim_terminator response).length := by
  unfold trim_terminator
  split
  · rw [List.length_dropLast]
  · omega

/-- A successful association-list lookup returns one of the stored values. -/
theorem lookup_mem_snd {α β : Type} [BEq α] (k : α) (v : β) :
    ∀ l : List (α × β), l.lookup k = some v → v ∈ l.map Prod.snd := by
  intro l
  induction l with
  | nil => intro h; simp [List.lookup] at h
  | cons kv tl ih =>
    intro h
    obtain ⟨k0, v0⟩ := kv
    cases hb : (k == k0) with
    | true =>
      simp only [List.lookup, hb, Option.some.injEq] at h
      subst h
      rw [List.map_cons]
      exact List.mem_cons_self _ _
    | false =>
      simp only [List.lookup, hb] at h
      rw [List.map_cons]
      exact List.mem_cons_of_mem _ (ih h)

/-- Every parameter tuple stored in the command registry consists of bytes. -/
theorem registry_params_bytes :
    ∀ v ∈ SMS_GAMER_COMMANDS_PARAMS.map Prod.snd,
      v.1 < 256 ∧ v.2.1 < 256 ∧ v.2.2.1 < 256 ∧ v.2.2.2.1 < 256 ∧ v.2.2.2.2 < 256 := by
  decide

/-! ## Claim theorems: codec -/

/-- C1: for every 5-tuple of byte values, `calculate_checksum` returns a value in
0..255 equal to the two's-complement negation of the sum masked to 8 bits, and
`(opcode + p1 + p2 + p3 + p4 + checksum) & 0xFF == 0`. -/
theorem checksum_spec (cmd_byte p1 p2 p3 p4 : Nat)
    (h0 : cmd_byte < 256) (h1 : p1 < 256) (h2 : p2 < 256) (h3 : p3 < 256) (h4 : p4 < 256) :
    calculate_checksum cmd_byte p1 p2 p3 p4 < 256 ∧
    (calculate_checksum cmd_byte p1 p2 p3 p4 : Int) =
      (-((cmd_byte : Int) + p1 + p2 + p3 + p4)) % 256 ∧
    (cmd_byte + p1 + p2 + p3 + p4 + calculate_checksum cmd_byte p1 p2 p3 p4) % 256 = 0 := by
  unfold calculate_checksum
  refine ⟨by omega, by omega, by omega⟩

/-- Witness for C1 at the 'Q' polling frame bytes (0x51, 0xFF, 0xFF, 0xFF, 0xFF). -/
theorem checksum_spec_witness :
    (0x51 < 256 ∧ 0xFF < 256) ∧
    (calculate_checksum 0x51 0xFF 0xFF 0xFF 0xFF < 256 ∧
     (calculate_checksum 0x51 0xFF 0xFF 0xFF 0xFF : Int) =
       (-((0x51 : Nat) + (0xFF : Nat) + (0xFF : Nat) + (0xFF : Nat) + (0xFF : Nat) : Int)) % 256 ∧
     (0x51 + 0xFF + 0xFF + 0xFF + 0xFF + calculate_checksum 0x51 0xFF 0xFF 0xFF 0xFF) % 256 = 0) :=
  ⟨by decide,
   checksum_spec 0x51 0xFF 0xFF 0xFF 0xFF (by decide) (by decide) (by decide) (by decide) (by decide)⟩

/-- C2: for every 5-tuple of byte values, `build_full_command` succeeds and returns
exactly the 7-byte frame: the five protocol bytes in order, the checksum byte,
then the terminator 0x0D. -/
theorem build_frame_spec (cmd_byte p1 p2 p3 p4 : Nat)
    (h0 : cmd_byte < 256) (h1 : p1 < 256) (h2 : p2 < 256) (h3 : p3 < 256) (h4 : p4 < 256) :
    build_full_command cmd_byte p1 p2 p3 p4 =
      some [cmd_byte, p1, p2, p3, p4, calculate_checksum cmd_byte p1 p2 p3 p4, 0x0D] ∧
    ([cmd_byte, p1, p2, p3, p4, calculate_checksum cmd_byte p1 p2 p3 p4, 0x0D] : List Nat).length
      = 7 ∧
    ([cmd_byte, p1, p2, p3, p4, calculate_checksum cmd_byte p1 p2 p3 p4, 0x0D] : List Nat).getLast?
      = some 0x0D :=
  ⟨build_full_command_eq cmd_byte p1 p2 p3 p4 h0 h1 h2 h3 h4, rfl, rfl⟩

/-- Witness for C2 at the 'Q' polling frame: the full frame is `51 ff ff ff ff b3 0d`. -/
theorem build_frame_spec_witness :
    (0x51 < 256 ∧ 0xFF < 256) ∧
    (build_full_command 0x51 0xFF 0xFF 0xFF 0xFF =
       some [0x51, 0xFF, 0xFF, 0xFF, 0xFF, calculate_checksum 0x51 0xFF 0xFF 0xFF 0xFF, 0x0D] ∧
     ([0x51, 0xFF, 0xFF, 0xFF, 0xFF, calculate_checksum 0x51 0xFF 0xFF 0xFF 0xFF, 0x0D] :
        List Nat).length = 7 ∧
     ([0x51, 0xFF, 0xFF, 0xFF, 0xFF, calculate_checksum 0x51 0xFF 0xFF 0xFF 0xFF, 0x0D] :
        List Nat).getLast? = some 0x0D) :=
  ⟨by decide,
   build_frame_spec 0x51 0xFF 0xFF 0xFF 0xFF (by decide) (by decide) (by decide) (by decide)
     (by decide)⟩

/-! ## Claim theorems: decoder -/

/-- C3 counterexample: on the spec's example buffer (17 bytes, as listed) the
decoder yields vin = 240.0 (raw 0x960 = 2400 tenths) and battery_percent = 90.0
(raw 0x384 = 900 tenths), not the claimed 24.0 and 100.0. -/
theorem interpret_example_cex :
    qExampleResponse.length = 17 ∧
    (interpret_q_response qExampleResponse).map QStatus.vin = some 240 ∧
    (240 : ℚ) ≠ 24 ∧
    (interpret_q_response qExampleResponse).map QStatus.battery_percent = some 90 ∧
    (90 : ℚ) ≠ 100 := by
  refine ⟨by decide, by with_unfolding_all rfl, by norm_num, by with_unfolding_all rfl, by norm_num⟩

/-- C3 amended: the example buffer decodes successfully to vin = 240.0,
vout = 23.0, load = 0.0, frequency = 60.0, battery = 90.0, temperature = 50.0,
flags byte 0x81 with active flags BateriaEmUso (battery in use) and BeepLigado
(beep on). -/
theorem interpret_example_decode :
    interpret_q_response qExampleResponse =
      some
        { vin := 240
          vout := 23
          load_percent := 0
          frequency := 60
          battery_percent := 90
          temperature := 50
          extra_flags_raw := 0x81
          active_flags := ["BateriaEmUso", "BeepLigado"]
          active_flags_str := "BateriaEmUso, BeepLigado"
          raw_response := [0x00, 0x00, 0x00, 0x09, 0x60, 0x00, 0xE6, 0x00, 0x00,
                           0x02, 0x58, 0x03, 0x84, 0x01, 0xF4, 0x81] } := by
  with_unfolding_all rfl

/-- C4: every input shorter than 17 bytes (empty included) is rejected, whatever
its content — the length check precedes any terminator stripping. -/
theorem interpret_short_response (response : List Nat) (h : response.length < 17) :
    interpret_q_response response = none := by
  unfold interpret_q_response
  rw [if_pos h]

/-- Witness for C4: a 16-byte response ending in the 0x0D terminator is rejected. -/
theorem interpret_short_response_witness :
    ([0, 0, 0, 0, 0, 0, 0, 0, 0, 0, 0, 0, 0, 0, 0, 0x0D] : List Nat).length < 17 ∧
    interpret_q_response [0, 0, 0, 0, 0, 0, 0, 0, 0, 0, 0, 0, 0, 0, 0, 0x0D] = none :=
  ⟨by decide,
   interpret_short_response [0, 0, 0, 0, 0, 0, 0, 0, 0, 0, 0, 0, 0, 0, 0, 0x0D] (by decide)⟩

/-- C5 counterexample: an input of exactly 16 payload bytes followed by the 0x0D
terminator (17 bytes total) is accepted, not rejected: it passes the `≥ 17`
check, is trimmed to 16 bytes, and decodes successfully. -/
theorem interpret_sixteen_plus_terminator_cex :
    sixteenPlusTerminator.length = 17 ∧
    sixteenPlusTerminator.getLast? = some 0x0D ∧
    (interpret_q_response sixteenPlusTerminator).isSome = true := by
  decide

/-- C5 amended: the 17-byte minimum is checked on the raw input before the
optional terminator strip; after stripping, the 16 bytes that can remain are
sufficient (field offsets only reach byte 15), so decoding succeeds exactly when
the raw input has at least 17 bytes. -/
theorem interpret_isSome_iff (response : List Nat) :
    (interpret_q_response response).isSome = true ↔ 17 ≤ response.length := by
  unfold interpret_q_response
  by_cases h : response.length < 17
  · rw [if_pos h]
    simp
    omega
  · rw [if_neg h]
    have hlen := trim_terminator_length_ge response
    rw [if_neg (by omega)]
    simp
    omega

/-- C6 counterexample: the all-zero flags byte yields the literal summary
`nenhuma flag ativa`, not `no active flags`, and bit 7 produces the name
`BateriaEmUso`, not `BatteryInUse`. -/
theorem flags_names_cex :
    flags_str_of 0 = "nenhuma flag ativa" ∧
    flags_str_of 0 ≠ "no active flags" ∧
    flags_on 0x80 = ["BateriaEmUso"] ∧
    "BatteryInUse" ∉ flags_on 0x80 := by
  decide

/-- C6 amended: for every flags byte, the active-flag names are exactly those of
the set bits under the source's mapping (bit 7 = BateriaEmUso, 6 = BateriaBaixa,
5 = ByPass, 4 = Boost, 3 = UpsOk, 2 = TesteAtivo, 1 = ShutdownAtivo,
0 = BeepLigado), no name outside these eight is ever produced, and the all-zero
byte yields the literal summary `nenhuma flag ativa`. -/
theorem flags_mapping_spec :
    ∀ extra : Nat, extra < 256 →
      flags_on extra =
        ((if extra.testBit 7 then ["BateriaEmUso"] else []) ++
         (if extra.testBit 6 then ["BateriaBaixa"] else []) ++
         (if extra.testBit 5 then ["ByPass"] else []) ++
         (if extra.testBit 4 then ["Boost"] else []) ++
         (if extra.testBit 3 then ["UpsOk"] else []) ++
         (if extra.testBit 2 then ["TesteAtivo"] else []) ++
         (if extra.testBit 1 then ["ShutdownAtivo"] else []) ++
         (if extra.testBit 0 then ["BeepLigado"] else [])) ∧
      (extra = 0 → flags_str_of extra = "nenhuma flag ativa") ∧
      (∀ name ∈ flags_on extra,
        name ∈ ["BateriaEmUso", "BateriaBaixa", "ByPass", "Boost",
                "UpsOk", "TesteAtivo", "ShutdownAtivo", "BeepLigado"]) := by
  set_option maxRecDepth 8192 in decide

/-- Witness for C6 (amended) at the example flags byte 0x81 and at 0. -/
theorem flags_mapping_spec_witness :
    ((0x81 : Nat) < 256 ∧ (0 : Nat) < 256) ∧
    (flags_on 0x81 =
        ((if (0x81 : Nat).testBit 7 then ["BateriaEmUso"] else []) ++
         (if (0x81 : Nat).testBit 6 then ["BateriaBaixa"] else []) ++
         (if (0x81 : Nat).testBit 5 then ["ByPass"] else []) ++
         (if (0x81 : Nat).testBit 4 then ["Boost"] else []) ++
         (if (0x81 : Nat).testBit 3 then ["UpsOk"] else []) ++
         (if (0x81 : Nat).testBit 2 then ["TesteAtivo"] else []) ++
         (if (0x81 : Nat).testBit 1 then ["ShutdownAtivo"] else []) ++
         (if (0x81 : Nat).testBit 0 then ["BeepLigado"] else [])) ∧
      ((0x81 : Nat) = 0 → flags_str_of 0x81 = "nenhuma flag ativa") ∧
      (∀ name ∈ flags_on 0x81,
        name ∈ ["BateriaEmUso", "BateriaBaixa", "ByPass", "Boost",
                "UpsOk", "TesteAtivo", "ShutdownAtivo", "BeepLigado"])) ∧
    (flags_str_of 0 = "nenhuma flag ativa") :=
  ⟨by decide, flags_mapping_spec 0x81 (by decide),
   (flags_mapping_spec 0 (by decide)).2.1 rfl⟩

/-! ## Claim theorems: MQTT bridge -/

/-- C7: on every successful MQTT (re)connect, the connect handler performs, in
this order and exactly once per event: (1) re-subscribe to the command topic,
(2) publish an empty retained message to the command topic (retained-command
purge), (3) republish the full discovery payload set — 7 sensors, 8 binary
sensors, the beep switch and 4 buttons, all non-empty retained publishes. -/
theorem on_connect_sequence (rc : Nat) (h : rc = 0) :
    on_mqtt_connect rc =
      MqttAction.subscribe commandTopic ::
      MqttAction.publish commandTopic true true ::
      publish_discovery_messages ∧
    (on_mqtt_connect rc).countP MqttAction.isSubscribe = 1 ∧
    (on_mqtt_connect rc).countP MqttAction.isCommandPurge = 1 ∧
    publish_discovery_messages =
      [MqttAction.publish "homeassistant/sensor/sms_gamer_monitor_vin/config" false true,
       MqttAction.publish "homeassistant/sensor/sms_gamer_monitor_vout/config" false true,
       MqttAction.publish "homeassistant/sensor/sms_gamer_monitor_load_percent/config" false true,
       MqttAction.publish "homeassistant/sensor/sms_gamer_monitor_frequency/config" false true,
       MqttAction.publish "homeassistant/sensor/sms_gamer_monitor_battery_percent/config"
         false true,
       MqttAction.publish "homeassistant/sensor/sms_gamer_monitor_temperature/config" false true,
       MqttAction.publish "homeassistant/sensor/sms_gamer_monitor_active_flags_str/config"
         false true,
       MqttAction.publish "homeassistant/binary_sensor/sms_gamer_monitor_bateriaemuso/config"
         false true,
       MqttAction.publish "homeassistant/binary_sensor/sms_gamer_monitor_bateriabaixa/config"
         false true,
       MqttAction.publish "homeassistant/binary_sensor/sms_gamer_monitor_bypass/config"
         false true,
       MqttAction.publish "homeassistant/binary_sensor/sms_gamer_monitor_boost/config"
         false true,
       MqttAction.publish "homeassistant/binary_sensor/sms_gamer_monitor_upsok/config"
         false true,
       MqttAction.publish "homeassistant/binary_sensor/sms_gamer_monitor_testeativo/config"
         false true,
       MqttAction.publish "homeassistant/binary_sensor/sms_gamer_monitor_shutdownativo/config"
         false true,
       MqttAction.publish "homeassistant/binary_sensor/sms_gamer_monitor_beepligado/config"
         false true,
       MqttAction.publish "homeassistant/switch/sms_gamer_monitor_beep_control/config"
         false true,
       MqttAction.publish "homeassistant/button/sms_gamer_monitor_battery_test/config"
         false true,
       MqttAction.publish "homeassistant/button/sms_gamer_monitor_battery_discharge/config"
         false true,
       MqttAction.publish "homeassistant/button/sms_gamer_monitor_cancel_action/config"
         false true,
       MqttAction.publish "homeassistant/button/sms_gamer_monitor_shutdown_restore/config"
         false true] ∧
    (∀ a ∈ publish_discovery_messages,
      a.isSubscribe = false ∧ a.isCommandPurge = false) := by
  subst h
  decide

/-- Witness for C7 at result code 0. -/
theorem on_connect_sequence_witness :
    (0 : Nat) = 0 ∧
    (on_mqtt_connect 0 =
      MqttAction.subscribe commandTopic ::
      MqttAction.publish commandTopic true true ::
      publish_discovery_messages ∧
    (on_mqtt_connect 0).countP MqttAction.isSubscribe = 1 ∧
    (on_mqtt_connect 0).countP MqttAction.isCommandPurge = 1 ∧
    publish_discovery_messages =
      [MqttAction.publish "homeassistant/sensor/sms_gamer_monitor_vin/config" false true,
       MqttAction.publish "homeassistant/sensor/sms_gamer_monitor_vout/config" false true,
       MqttAction.publish "homeassistant/sensor/sms_gamer_monitor_load_percent/config" false true,
       MqttAction.publish "homeassistant/sensor/sms_gamer_monitor_frequency/config" false true,
       MqttAction.publish "homeassistant/sensor/sms_gamer_monitor_battery_percent/config"
         false true,
       MqttAction.publish "homeassistant/sensor/sms_gamer_monitor_temperature/config" false true,
       MqttAction.publish "homeassistant/sensor/sms_gamer_monitor_active_flags_str/config"
         false true,
       MqttAction.publish "homeassistant/binary_sensor/sms_gamer_monitor_bateriaemuso/config"
         false true,
       MqttAction.publish "homeassistant/binary_sensor/sms_gamer_monitor_bateriabaixa/config"
         false true,
       MqttAction.publish "homeassistant/binary_sensor/sms_gamer_monitor_bypass/config"
         false true,
       MqttAction.publish "homeassistant/binary_sensor/sms_gamer_monitor_boost/config"
         false true,
       MqttAction.publish "homeassistant/binary_sensor/sms_gamer_monitor_upsok/config"
         false true,
       MqttAction.publish "homeassistant/binary_sensor/sms_gamer_monitor_testeativo/config"
         false true,
       MqttAction.publish "homeassistant/binary_sensor/sms_gamer_monitor_shutdownativo/config"
         false true,
       MqttAction.publish "homeassistant/binary_sensor/sms_gamer_monitor_beepligado/config"
         false true,
       MqttAction.publish "homeassistant/switch/sms_gamer_monitor_beep_control/config"
         false true,
       MqttAction.publish "homeassistant/button/sms_gamer_monitor_battery_test/config"
         false true,
       MqttAction.publish "homeassistant/button/sms_gamer_monitor_battery_discharge/config"
         false true,
       MqttAction.publish "homeassistant/button/sms_gamer_monitor_cancel_action/config"
         false true,
       MqttAction.publish "homeassistant/button/sms_gamer_monitor_shutdown_restore/config"
         false true] ∧
    (∀ a ∈ publish_discovery_messages,
      a.isSubscribe = false ∧ a.isCommandPurge = false)) :=
  ⟨rfl, on_connect_sequence 0 rfl⟩

/-- C8: inbound MQTT dispatch — malformed JSON and payloads without a truthy
`"command"` entry are dropped with no serial traffic; an unregistered command key
is dropped with no serial traffic; a registered key on a connected transport
builds the command frame, writes it, settles 1 s, reads — and no effect is ever
an MQTT publish (the response is logged, never republished). -/
theorem on_message_dispatch (st : BridgeState) (resp : List Nat) (key : String)
    (cmd_byte p1 p2 p3 p4 : Nat)
    (hreg : SMS_GAMER_COMMANDS_PARAMS.lookup key = some (cmd_byte, p1, p2, p3, p4))
    (hc : st.connected = true) (hs : st.serialPresent = true) :
    (∃ cmd_packet,
        build_full_command cmd_byte p1 p2 p3 p4 = some cmd_packet ∧
        on_mqtt_message (.command key) st resp =
          [Effect.serialWrite cmd_packet, Effect.sleepMs 1000, Effect.serialRead 64]) ∧
    (∀ e ∈ on_mqtt_message (.command key) st resp, e.isMqttPublish = false) ∧
    (∀ k, SMS_GAMER_COMMANDS_PARAMS.lookup k = none →
        on_mqtt_message (.command k) st resp = []) ∧
    on_mqtt_message .malformed st resp = [] ∧
    on_mqtt_message .noCommand st resp = [] := by
  have hmem := lookup_mem_snd key (cmd_byte, p1, p2, p3, p4) SMS_GAMER_COMMANDS_PARAMS hreg
  have hb := registry_params_bytes _ hmem
  have hbuild := build_full_command_eq cmd_byte p1 p2 p3 p4 hb.1 hb.2.1 hb.2.2.1 hb.2.2.2.1
    hb.2.2.2.2
  have htrace : on_mqtt_message (.command key) st resp =
      [Effect.serialWrite
         [cmd_byte, p1, p2, p3, p4, calculate_checksum cmd_byte p1 p2 p3 p4, 0x0D],
       Effect.sleepMs 1000, Effect.serialRead 64] := by
    simp only [on_mqtt_message, send_predefined_command, hreg, hbuild, hc, hs,
      Bool.and_self, if_true]
  refine ⟨⟨_, hbuild, htrace⟩, ?_, ?_, rfl, rfl⟩
  · rw [htrace]
    intro e he
    fin_cases he <;> rfl
  · intro k hk
    simp only [on_mqtt_message, hk]

/-- Witness for C8 at the battery-test command "T" on a connected transport. -/
theorem on_message_dispatch_witness :
    (SMS_GAMER_COMMANDS_PARAMS.lookup "T" = some (0x54, 0x00, 0x10, 0x00, 0x00) ∧
     (BridgeState.mk true true).connected = true ∧
     (BridgeState.mk true true).serialPresent = true) ∧
    ((∃ cmd_packet,
        build_full_command 0x54 0x00 0x10 0x00 0x00 = some cmd_packet ∧
        on_mqtt_message (.command "T") (BridgeState.mk true true) [] =
          [Effect.serialWrite cmd_packet, Effect.sleepMs 1000, Effect.serialRead 64]) ∧
     (∀ e ∈ on_mqtt_message (.command "T") (BridgeState.mk true true) [],
        e.isMqttPublish = false) ∧
     (∀ k, SMS_GAMER_COMMANDS_PARAMS.lookup k = none →
        on_mqtt_message (.command k) (BridgeState.mk true true) [] = []) ∧
     on_mqtt_message .malformed (BridgeState.mk true true) [] = [] ∧
     on_mqtt_message .noCommand (BridgeState.mk true true) [] = []) :=
  ⟨⟨by decide, rfl, rfl⟩,
   on_message_dispatch (BridgeState.mk true true) [] "T" 0x54 0x00 0x10 0x00 0x00
     (by decide) rfl rfl⟩

/-- C9: `send_simple_command` raises `ValueError` for every command character
outside {"Q", "I", "F"}, for every session state — in particular even when the
serial line is not connected, since the check precedes the connected check — in
contrast to `send_predefined_command`, which returns `None` (no exception) on an
unknown key. -/
theorem send_simple_unknown_raises (command_char : String) (st : BridgeState)
    (resp : List Nat)
    (h1 : command_char ≠ "Q") (h2 : command_char ≠ "I") (h3 : command_char ≠ "F") :
    send_simple_command command_char st resp =
      Except.error "Comando simples nao suportado" ∧
    (∀ key, SMS_GAMER_COMMANDS_PARAMS.lookup key = none →
      send_predefined_command key st resp = (none, [])) := by
  constructor
  · have e1 : (command_char == "Q") = false := beq_eq_false_iff_ne.mpr h1
    have e2 : (command_char == "I") = false := beq_eq_false_iff_ne.mpr h2
    have e3 : (command_char == "F") = false := beq_eq_false_iff_ne.mpr h3
    simp only [send_simple_command, simple_commands_map, List.lookup, e1, e2, e3]
  · intro key hk
    simp only [send_predefined_command, hk]

/-- Witness for C9 at the beep command "M" (registered as a predefined command
but not a simple one) on a disconnected session, and the unknown key "X". -/
theorem send_simple_unknown_raises_witness :
    (("M" : String) ≠ "Q" ∧ ("M" : String) ≠ "I" ∧ ("M" : String) ≠ "F") ∧
    (send_simple_command "M" (BridgeState.mk false false) [] =
       Except.error "Comando simples nao suportado" ∧
     (∀ key, SMS_GAMER_COMMANDS_PARAMS.lookup key = none →
        send_predefined_command key (BridgeState.mk false false) [] = (none, []))) ∧
    SMS_GAMER_COMMANDS_PARAMS.lookup "X" = none :=
  ⟨⟨by decide, by decide, by decide⟩,
   send_simple_unknown_raises "M" (BridgeState.mk false false) []
     (by decide) (by decide) (by decide),
   by decide⟩

/-- C10: when the transport is down (connected flag false or serial handle
absent), every registered command — simple or predefined — returns `None` with
no serial write, sleep or read performed. -/
theorem send_disconnected_noop (st : BridgeState) (resp : List Nat)
    (hdisc : ¬(st.connected = true ∧ st.serialPresent = true)) :
    (∀ key params, SMS_GAMER_COMMANDS_PARAMS.lookup key = some params →
        send_predefined_command key st resp = (none, [])) ∧
    (∀ command_char cmd_byte, simple_commands_map.lookup command_char = some cmd_byte →
        send_simple_command command_char st resp = Except.ok (none, [])) := by
  have hand : ¬((st.connected && st.serialPresent) = true) := by
    simpa [Bool.and_eq_true] using hdisc
  constructor
  · intro key params hk
    obtain ⟨cmd_byte, p1, p2, p3, p4⟩ := params
    simp only [send_predefined_command, hk]
    cases hbuild : build_full_command cmd_byte p1 p2 p3 p4 with
    | none => rfl
    | some cmd_packet => exact if_neg hand
  · intro command_char cmd_byte hk
    simp only [send_simple_command, hk]
    cases hbuild : build_full_command cmd_byte 0xFF 0xFF 0xFF 0xFF with
    | none => rfl
    | some cmd_packet => exact if_neg hand

/-- Witness for C10: on a session whose connected flag is false, the predefined
shutdown command "R" and the simple poll "Q" both return `None` with no effects. -/
theorem send_disconnected_noop_witness :
    (¬((BridgeState.mk false true).connected = true ∧
       (BridgeState.mk false true).serialPresent = true)) ∧
    ((∀ key params, SMS_GAMER_COMMANDS_PARAMS.lookup key = some params →
        send_predefined_command key (BridgeState.mk false true) [] = (none, [])) ∧
     (∀ command_char cmd_byte, simple_commands_map.lookup command_char = some cmd_byte →
        send_simple_command command_char (BridgeState.mk false true) [] =
          Except.ok (none, []))) ∧
    SMS_GAMER_COMMANDS_PARAMS.lookup "R" = some (0x52, 0x00, 0xC8, 0x27, 0x0F) ∧
    simple_commands_map.lookup "Q" = some 0x51 :=
  ⟨by decide,
   send_disconnected_noop (BridgeState.mk false true) [] (by decide),
   by decide, by decide⟩

end SMSGamer
